import Mathlib

/-!
Verification of the Help Scout MCP server (`src/index.ts`, `src/inbox-client.ts`,
`src/docs-client.ts` — the Docs client source is appended inside `src/index.ts`).

The development shallowly embeds the two HTTP API clients:

* `DocsClient` — stateless client for the Docs API (Basic Auth, base
  `https://docsapi.helpscout.net/v1`); each operation builds a
  `RequestDescriptor` (the arguments it passes to `DocsClient.request`).
* `InboxClient` — client for the Inbox API (OAuth2 client credentials,
  base `https://api.helpscout.net/v2`) with a cached access token.

Network effects are made explicit: the response the transport would return is
passed in as a value, and each modelled call reports how many network requests
it issued.  Machine-level aspects that no property below depends on are
modelled as follows: JavaScript numbers carrying identifiers, page numbers and
epoch milliseconds are embedded as `Int`; `JSON.parse` is embedded by
`parseJson` (a JSON parser for objects, arrays, strings with the single-letter
escape sequences, integers, booleans and null; `\u` escapes, fractional and
exponent number forms are not modelled — no theorem depends on inputs using
them); `JSON.stringify(x, null, 2)` is embedded by `renderJson` without the
pretty-printing whitespace (no theorem inspects a success payload's text).
-/

/-- A JavaScript JSON value (result of `JSON.parse` / argument of
`JSON.stringify`).  Numbers are restricted to integers, which covers every
value the embedded code constructs itself. -/
inductive Json where
  | null : Json
  | bool (b : Bool) : Json
  | num (n : Int) : Json
  | str (s : String) : Json
  | arr (elems : List Json) : Json
  | obj (fields : List (String × Json)) : Json

/-- The left brace character, kept out of literals. -/
def lbrace : Char := Char.ofNat 123

/-- The right brace character, kept out of literals. -/
def rbrace : Char := Char.ofNat 125

/-- Whitespace accepted between JSON tokens. -/
def isJsonWs (c : Char) : Bool :=
  c = ' ' || c = '\n' || c = '\t' || c = '\r'

/-- Drop leading JSON whitespace. -/
def skipWs : List Char → List Char
  | [] => []
  | c :: cs => if isJsonWs c then skipWs cs else c :: cs

/-- Single-letter string escape sequences of JSON. -/
def escChar : Char → Option Char
  | '"' => some '"'
  | '\\' => some '\\'
  | '/' => some '/'
  | 'b' => some (Char.ofNat 8)
  | 'f' => some (Char.ofNat 12)
  | 'n' => some '\n'
  | 'r' => some '\r'
  | 't' => some '\t'
  | _ => none

/-- Parse the body of a JSON string after the opening quote; returns the
characters of the string and the input after the closing quote. -/
def parseStringBody : Nat → List Char → Option (List Char × List Char)
  | 0, _ => none
  | _ + 1, [] => none
  | fuel + 1, c :: cs =>
    if c = '"' then some ([], cs)
    else if c = '\\' then
      match cs with
      | [] => none
      | e :: cs' =>
        match escChar e with
        | some ec => (parseStringBody fuel cs').map (fun r => (ec :: r.1, r.2))
        | none => none
    else (parseStringBody fuel cs).map (fun r => (c :: r.1, r.2))

/-- Take a maximal run of decimal digits. -/
def takeDigits : List Char → List Char × List Char
  | [] => ([], [])
  | c :: cs =>
    if c.isDigit then
      let r := takeDigits cs
      (c :: r.1, r.2)
    else ([], c :: cs)

/-- Numeric value of a digit run. -/
def digitsToNat (ds : List Char) : Nat :=
  ds.foldl (fun n c => n * 10 + (c.toNat - 48)) 0

/-- Parse a JSON integer (fractional/exponent forms are rejected by the
model; see the module comment). -/
def parseIntToken : List Char → Option (Json × List Char)
  | '-' :: cs =>
    match takeDigits cs with
    | ([], _) => none
    | (ds, rest) => some (.num (-(digitsToNat ds : Int)), rest)
  | cs =>
    match takeDigits cs with
    | ([], _) => none
    | (ds, rest) => some (.num (digitsToNat ds), rest)

mutual

/-- Parse one JSON value; returns the value and the unconsumed input. -/
def parseVal : Nat → List Char → Option (Json × List Char)
  | 0, _ => none
  | fuel + 1, input =>
    match skipWs input with
    | [] => none
    | 'n' :: 'u' :: 'l' :: 'l' :: rest => some (.null, rest)
    | 't' :: 'r' :: 'u' :: 'e' :: rest => some (.bool true, rest)
    | 'f' :: 'a' :: 'l' :: 's' :: 'e' :: rest => some (.bool false, rest)
    | '"' :: rest =>
      (parseStringBody (rest.length + 1) rest).map
        (fun r => (.str (String.mk r.1), r.2))
    | '[' :: rest =>
      (match skipWs rest with
       | ']' :: rest' => some (.arr [], rest')
       | other => parseArrRest fuel other [])
    | c :: rest =>
      if c = lbrace then
        match skipWs rest with
        | c' :: rest' =>
          if c' = rbrace then some (.obj [], rest')
          else parseObjRest fuel (c' :: rest') []
        | [] => none
      else parseIntToken (c :: rest)

/-- Parse the elements of a non-empty JSON array. -/
def parseArrRest : Nat → List Char → List Json → Option (Json × List Char)
  | 0, _, _ => none
  | fuel + 1, input, acc =>
    match parseVal fuel input with
    | none => none
    | some (j, rest) =>
      match skipWs rest with
      | ',' :: rest' => parseArrRest fuel rest' (acc ++ [j])
      | ']' :: rest' => some (.arr (acc ++ [j]), rest')
      | _ => none

/-- Parse the members of a non-empty JSON object. -/
def parseObjRest : Nat → List Char → List (String × Json) →
    Option (Json × List Char)
  | 0, _, _ => none
  | fuel + 1, input, acc =>
    match skipWs input with
    | '"' :: rest =>
      match parseStringBody (rest.length + 1) rest with
      | none => none
      | some (key, afterKey) =>
        match skipWs afterKey with
        | ':' :: afterColon =>
          match parseVal fuel afterColon with
          | none => none
          | some (j, rest') =>
            match skipWs rest' with
            | ',' :: rest'' => parseObjRest fuel rest'' (acc ++ [(String.mk key, j)])
            | c :: rest'' =>
              if c = rbrace then some (.obj (acc ++ [(String.mk key, j)]), rest'')
              else none
            | [] => none
        | _ => none
    | _ => none

end

/-- The model of JavaScript's `JSON.parse`: `none` where `JSON.parse` throws a
`SyntaxError` (over the modelled grammar). -/
def parseJson (s : String) : Option Json :=
  match parseVal (2 * s.data.length + 2) s.data with
  | some (j, rest) => if skipWs rest = [] then some j else none
  | none => none

mutual

/-- The model of `JSON.stringify(x, null, 2)`, without the indentation
whitespace (no theorem inspects the resulting text). -/
def renderJson : Json → String
  | .null => "null"
  | .bool true => "true"
  | .bool false => "false"
  | .num n => toString n
  | .str s => "\"" ++ s ++ "\""
  | .arr xs => "[" ++ renderArr xs ++ "]"
  | .obj fs => String.singleton lbrace ++ renderObj fs ++ String.singleton rbrace

/-- Render array elements, comma separated. -/
def renderArr : List Json → String
  | [] => ""
  | [x] => renderJson x
  | x :: xs => renderJson x ++ "," ++ renderArr xs

/-- Render object members, comma separated. -/
def renderObj : List (String × Json) → String
  | [] => ""
  | [(k, v)] => "\"" ++ k ++ "\":" ++ renderJson v
  | (k, v) :: fs => "\"" ++ k ++ "\":" ++ renderJson v ++ "," ++ renderObj fs

end

/-! ## HTTP model -/

/-- An HTTP response as both clients observe it: the status code, the
`content-length` header (`none` when absent, mirroring `headers.get` returning
`null`), and the body text (`await response.text()`). -/
structure HttpResponse where
  status : Nat
  contentLength : Option String := none
  body : String := ""

/-- `Response.ok` of the Fetch API: status in the range 200–299. -/
def statusOk (status : Nat) : Bool :=
  200 ≤ status && status ≤ 299

/-- A raised error of the embedded code: `.api` is a thrown
`new Error(message)`; `.parse` is the `SyntaxError` that `JSON.parse` throws
on its argument (whose engine-specific message text is not modelled). -/
inductive ReqError where
  | api (message : String) : ReqError
  | parse (text : String) : ReqError
deriving DecidableEq

/-- A value of a query-parameter record entry.  The source checks
`value !== undefined && value !== null && value !== ''`, so the model keeps
the three shapes apart. -/
inductive QueryValue where
  | undefined : QueryValue
  | null : QueryValue
  | str (s : String) : QueryValue
deriving DecidableEq

/-- The arguments one client operation passes to its `request` method. -/
structure RequestDescriptor where
  method : String
  path : String
  body : Option Json := none
  queryParams : List (String × QueryValue) := []

/-- `URLSearchParams.set`: replace the first binding of the key (dropping any
further bindings of it), or append the pair when the key is absent. -/
def setParam : List (String × String) → String → String → List (String × String)
  | [], k, v => [(k, v)]
  | (k', v') :: rest, k, v =>
    if k' = k then (k, v) :: rest.filter (fun p => p.1 ≠ k)
    else (k', v') :: setParam rest k v

/-- One iteration of the query-parameter loop shared by both `request`
methods: `if (value !== undefined && value !== null && value !== '')
url.searchParams.set(key, value)`. -/
def applyQueryParam (acc : List (String × String)) (k : String) :
    QueryValue → List (String × String)
  | .undefined => acc
  | .null => acc
  | .str s => if s ≠ "" then setParam acc k s else acc

/-- The whole query-parameter loop of `request`, starting from the search
params already present in the URL built from the path. -/
def addQueryParams (init : List (String × String))
    (qp : List (String × QueryValue)) : List (String × String) :=
  qp.foldl (fun acc p => applyQueryParam acc p.1 p.2) init

/-- Split one character off groups: own structural model of splitting a
character list at every occurrence of `c`. -/
def splitOnChar (c : Char) : List Char → List (List Char)
  | [] => [[]]
  | x :: xs =>
    if x = c then [] :: splitOnChar c xs
    else
      match splitOnChar c xs with
      | [] => [[x]]
      | g :: gs => (x :: g) :: gs

/-- Rejoin character groups with a separator (inverse of `splitOnChar`). -/
def joinWithChar (c : Char) : List (List Char) → List Char
  | [] => []
  | [g] => g
  | g :: gs => g ++ c :: joinWithChar c gs

/-- `new URL(base + path)`: split the path at its first `?` into the path
part and the query string. -/
def splitPathQuery (path : String) : String × String :=
  match splitOnChar '?' path.data with
  | [] => (path, "")
  | p :: rest =>
    (String.mk p, if rest = [] then "" else String.mk (joinWithChar '?' rest))

/-- Parse a query string (as `new URL` does for a `?query` already present in
the path, e.g. `reload=true`) into key/value pairs. -/
def parseQuery (q : String) : List (String × String) :=
  if q = "" then []
  else
    (splitOnChar '&' q.data).map (fun kv =>
      match splitOnChar '=' kv with
      | [] => ("", "")
      | [k] => (String.mk k, "")
      | k :: vs => (String.mk k, String.mk (joinWithChar '=' vs)))

/-- The URL a client sends: base part (scheme, host, path) and the assembled
search parameters. -/
structure Url where
  base : String
  params : List (String × String)

/-- Whether the URL carries a query parameter with the given name. -/
def urlHasParam (u : Url) (k : String) : Bool :=
  u.params.any (fun p => p.1 = k)

/-! ## Docs client (`DocsClient` in `src/index.ts`) -/

/-- Base URL of the Docs API. -/
def DOCS_BASE_URL : String := "https://docsapi.helpscout.net/v1"

/-- The Docs client: a static API key, no other state. -/
structure DocsClient where
  apiKey : String

/-- URL construction of `DocsClient.request`: `new URL(BASE_URL + path)`
followed by the query-parameter loop. -/
def docsBuildUrl (path : String) (qp : List (String × QueryValue)) : Url :=
  let pq := splitPathQuery path
  { base := DOCS_BASE_URL ++ pq.1, params := addQueryParams (parseQuery pq.2) qp }

/-- Response handling of `DocsClient.request`: non-2xx throws an error
carrying status and body text; 204 or a zero `content-length` header or an
empty body text yields `{}`; otherwise the body is `JSON.parse`d. -/
def docsHandleResponse (r : HttpResponse) : Except ReqError Json :=
  if statusOk r.status = false then
    .error (.api ("Help Scout Docs API error " ++ toString r.status ++ ": " ++ r.body))
  else if r.status = 204 || r.contentLength = some "0" then
    .ok (.obj [])
  else if r.body = "" then
    .ok (.obj [])
  else
    match parseJson r.body with
    | some j => .ok j
    | none => .error (.parse r.body)

/-- One whole run of `DocsClient.request`, with the transport's response
injected: the URL sent, the outcome, and the number of HTTP requests issued
(always exactly one — there is no retry loop in the source). -/
def DocsClient.requestRun (d : RequestDescriptor) (resp : HttpResponse) :
    Url × Except ReqError Json × Nat :=
  (docsBuildUrl d.path d.queryParams, docsHandleResponse resp, 1)

/-! ## Inbox client (`src/inbox-client.ts`) -/

/-- Base URL of the Inbox API. -/
def INBOX_BASE_URL : String := "https://api.helpscout.net/v2"

/-- Token endpoint of the Inbox API. -/
def TOKEN_URL : String := "https://api.helpscout.net/v2/oauth2/token"

/-- The mutable fields of `InboxClient`: the cached token (`null` at
construction) and its expiry in epoch milliseconds (`0` at construction). -/
structure InboxState where
  accessToken : Option String
  tokenExpiry : Int
deriving DecidableEq

/-- The state the `InboxClient` constructor leaves behind. -/
def InboxClient.initState : InboxState :=
  { accessToken := none, tokenExpiry := 0 }

/-- JavaScript truthiness of `string | null`: `null` and the empty string are
falsy (the source guards the cache with `this.accessToken && ...`). -/
def strTruthy : Option String → Bool
  | none => false
  | some s => s ≠ ""

/-- The response of the token endpoint: status and raw body text, plus the
`access_token` and `expires_in` fields of the body.  The source casts
`await response.json()` to `{access_token: string; expires_in: number}`
without validation, so the model carries the two fields directly. -/
structure TokenResponse where
  status : Nat
  bodyText : String := ""
  access_token : String := ""
  expires_in : Int := 0

/-- Result of `getAccessToken`: the returned token or the raised error, the
client state afterwards, and the number of token-exchange requests issued. -/
structure TokenResult where
  result : Except ReqError String
  state : InboxState
  exchanges : Nat

/-- The token-exchange part of `InboxClient.getAccessToken` (the `fetch` of
`TOKEN_URL` and everything after it).  On a non-2xx response the error is
thrown before either field is assigned; on success the token is stored and
the expiry is set to `Date.now() + (expires_in - 60) * 1000`. -/
def InboxClient.tokenExchange (st : InboxState) (now : Int)
    (resp : TokenResponse) : TokenResult :=
  if statusOk resp.status = false then
    { result := .error (.api ("Help Scout OAuth error " ++ toString resp.status
        ++ ": " ++ resp.bodyText)),
      state := st, exchanges := 1 }
  else
    { result := .ok resp.access_token,
      state := { accessToken := some resp.access_token,
                 tokenExpiry := now + (resp.expires_in - 60) * 1000 },
      exchanges := 1 }

/-- `InboxClient.getAccessToken`: reuse the cached token when it is truthy
and `Date.now() < this.tokenExpiry`; otherwise perform a token exchange. -/
def InboxClient.getAccessToken (st : InboxState) (now : Int)
    (resp : TokenResponse) : TokenResult :=
  if strTruthy st.accessToken = true ∧ now < st.tokenExpiry then
    { result := .ok (st.accessToken.getD ""), state := st, exchanges := 0 }
  else
    InboxClient.tokenExchange st now resp

/-- URL construction of `InboxClient.request` (same loop over a different
base URL). -/
def inboxBuildUrl (path : String) (qp : List (String × QueryValue)) : Url :=
  let pq := splitPathQuery path
  { base := INBOX_BASE_URL ++ pq.1, params := addQueryParams (parseQuery pq.2) qp }

/-- Response handling of `InboxClient.request` (identical control flow to the
Docs client, different error message text). -/
def inboxHandleResponse (r : HttpResponse) : Except ReqError Json :=
  if statusOk r.status = false then
    .error (.api ("Help Scout Inbox API error " ++ toString r.status ++ ": " ++ r.body))
  else if r.status = 204 || r.contentLength = some "0" then
    .ok (.obj [])
  else if r.body = "" then
    .ok (.obj [])
  else
    match parseJson r.body with
    | some j => .ok j
    | none => .error (.parse r.body)

/-- Outcome of one `InboxClient.request` run: result, state afterwards, the
number of token exchanges and of API HTTP requests issued. -/
structure InboxCallOutcome where
  result : Except ReqError Json
  state : InboxState
  exchanges : Nat
  httpCalls : Nat

/-- One whole run of `InboxClient.request`: `getAccessToken` first (its error
propagates before any API request is sent), then the API `fetch` with the
injected response. -/
def InboxClient.requestRun (st : InboxState) (now : Int)
    (tokResp : TokenResponse) (d : RequestDescriptor) (resp : HttpResponse) :
    InboxCallOutcome :=
  let t := InboxClient.getAccessToken st now tokResp
  match t.result with
  | .error e => { result := .error e, state := t.state,
                  exchanges := t.exchanges, httpCalls := 0 }
  | .ok _ =>
    let _url := inboxBuildUrl d.path d.queryParams
    { result := inboxHandleResponse resp, state := t.state,
      exchanges := t.exchanges, httpCalls := 1 }

/-! ## Per-operation query builders -/

/-- JavaScript truthiness of an optional number: `undefined`, `0` (and `NaN`,
not representable here) are falsy. -/
def optIntTruthy : Option Int → Bool
  | none => false
  | some n => n ≠ 0

/-- JavaScript truthiness of an optional string: `undefined` and `""` are
falsy. -/
def optStrTruthy : Option String → Bool
  | none => false
  | some s => s ≠ ""

/-- One `if (cond) queryParams.key = value;` line of a per-operation query
builder. -/
def addIf (qp : List (String × QueryValue)) (cond : Bool) (k v : String) :
    List (String × QueryValue) :=
  if cond then qp ++ [(k, .str v)] else qp

/-- Whether `request`'s filter keeps a query value
(`value !== undefined && value !== null && value !== ''`). -/
def queryValueKept : QueryValue → Bool
  | .undefined => false
  | .null => false
  | .str s => s ≠ ""

/-! ## Docs client operations (each yields the arguments passed to
`DocsClient.request`) -/

/-- `listSites(page = 1)`: the default parameter applies when the argument is
`undefined`; the page is always sent. -/
def DocsClient.listSites (page : Option Int) : RequestDescriptor :=
  let pg := page.getD 1
  { method := "GET", path := "/sites",
    queryParams := [("page", .str (toString pg))] }

/-- `getSite(siteId)`. -/
def DocsClient.getSite (siteId : String) : RequestDescriptor :=
  { method := "GET", path := "/sites/" ++ siteId }

/-- `createSite(data)`. -/
def DocsClient.createSite (data : Json) : RequestDescriptor :=
  { method := "POST", path := "/sites?reload=true", body := some data }

/-- `updateSite(siteId, data)`. -/
def DocsClient.updateSite (siteId : String) (data : Json) : RequestDescriptor :=
  { method := "PUT", path := "/sites/" ++ siteId ++ "?reload=true",
    body := some data }

/-- `deleteSite(siteId)`. -/
def DocsClient.deleteSite (siteId : String) : RequestDescriptor :=
  { method := "DELETE", path := "/sites/" ++ siteId }

/-- Optional filters of `listCollections`. -/
structure ListCollectionsParams where
  page : Option Int := none
  siteId : Option String := none
  visibility : Option String := none
  sort : Option String := none
  order : Option String := none

/-- `listCollections(params?)`. -/
def DocsClient.listCollections (p : ListCollectionsParams) : RequestDescriptor :=
  let qp : List (String × QueryValue) := []
  let qp := addIf qp (optIntTruthy p.page) "page" (toString (p.page.getD 0))
  let qp := addIf qp (optStrTruthy p.siteId) "siteId" (p.siteId.getD "")
  let qp := addIf qp (optStrTruthy p.visibility) "visibility" (p.visibility.getD "")
  let qp := addIf qp (optStrTruthy p.sort) "sort" (p.sort.getD "")
  let qp := addIf qp (optStrTruthy p.order) "order" (p.order.getD "")
  { method := "GET", path := "/collections", queryParams := qp }

/-- `getCollection(collectionId)`. -/
def DocsClient.getCollection (collectionId : String) : RequestDescriptor :=
  { method := "GET", path := "/collections/" ++ collectionId }

/-- `createCollection(data)`. -/
def DocsClient.createCollection (data : Json) : RequestDescriptor :=
  { method := "POST", path := "/collections?reload=true", body := some data }

/-- `updateCollection(collectionId, data)`. -/
def DocsClient.updateCollection (collectionId : String) (data : Json) :
    RequestDescriptor :=
  { method := "PUT", path := "/collections/" ++ collectionId ++ "?reload=true",
    body := some data }

/-- `deleteCollection(collectionId)`. -/
def DocsClient.deleteCollection (collectionId : String) : RequestDescriptor :=
  { method := "DELETE", path := "/collections/" ++ collectionId }

/-- Optional filters of `listCategories`. -/
structure ListCategoriesParams where
  page : Option Int := none
  sort : Option String := none
  order : Option String := none

/-- `listCategories(collectionId, params?)`. -/
def DocsClient.listCategories (collectionId : String)
    (p : ListCategoriesParams) : RequestDescriptor :=
  let qp : List (String × QueryValue) := []
  let qp := addIf qp (optIntTruthy p.page) "page" (toString (p.page.getD 0))
  let qp := addIf qp (optStrTruthy p.sort) "sort" (p.sort.getD "")
  let qp := addIf qp (optStrTruthy p.order) "order" (p.order.getD "")
  { method := "GET", path := "/collections/" ++ collectionId ++ "/categories",
    queryParams := qp }

/-- `getCategory(categoryId)`. -/
def DocsClient.getCategory (categoryId : String) : RequestDescriptor :=
  { method := "GET", path := "/categories/" ++ categoryId }

/-- `createCategory(data)`. -/
def DocsClient.createCategory (data : Json) : RequestDescriptor :=
  { method := "POST", path := "/categories?reload=true", body := some data }

/-- `updateCategory(categoryId, data)`. -/
def DocsClient.updateCategory (categoryId : String) (data : Json) :
    RequestDescriptor :=
  { method := "PUT", path := "/categories/" ++ categoryId ++ "?reload=true",
    body := some data }

/-- `updateCategoryOrder(collectionId, categories)`: one batch `PUT` with the
`(id, order)` pairs in the body. -/
def DocsClient.updateCategoryOrder (collectionId : String)
    (categories : List (String × Int)) : RequestDescriptor :=
  { method := "PUT", path := "/collections/" ++ collectionId ++ "/categories",
    body := some (.obj [("categories", .arr (categories.map (fun c =>
      .obj [("id", .str c.1), ("order", .num c.2)])))]) }

/-- `deleteCategory(categoryId)`. -/
def DocsClient.deleteCategory (categoryId : String) : RequestDescriptor :=
  { method := "DELETE", path := "/categories/" ++ categoryId }

/-- The explicit parent discriminant of `listArticles`
(`parentType: 'collection' | 'category'`). -/
inductive ParentType where
  | collection : ParentType
  | category : ParentType
deriving DecidableEq

/-- Optional filters of `listArticles`. -/
structure ListArticlesParams where
  page : Option Int := none
  status : Option String := none
  sort : Option String := none
  order : Option String := none
  pageSize : Option Int := none

/-- `listArticles(parentId, parentType, params?)`: the path template is
selected by the explicit discriminant. -/
def DocsClient.listArticles (parentId : String) (parentType : ParentType)
    (p : ListArticlesParams) : RequestDescriptor :=
  let basePath :=
    match parentType with
    | .collection => "/collections/" ++ parentId ++ "/articles"
    | .category => "/categories/" ++ parentId ++ "/articles"
  let qp : List (String × QueryValue) := []
  let qp := addIf qp (optIntTruthy p.page) "page" (toString (p.page.getD 0))
  let qp := addIf qp (optStrTruthy p.status) "status" (p.status.getD "")
  let qp := addIf qp (optStrTruthy p.sort) "sort" (p.sort.getD "")
  let qp := addIf qp (optStrTruthy p.order) "order" (p.order.getD "")
  let qp := addIf qp (optIntTruthy p.pageSize) "pageSize" (toString (p.pageSize.getD 0))
  { method := "GET", path := basePath, queryParams := qp }

/-- Parameters of `searchArticles` (`query` is required and always sent). -/
structure SearchArticlesParams where
  query : String
  collectionId : Option String := none
  siteId : Option String := none
  status : Option String := none
  visibility : Option String := none
  page : Option Int := none

/-- `searchArticles(params)`. -/
def DocsClient.searchArticles (p : SearchArticlesParams) : RequestDescriptor :=
  let qp : List (String × QueryValue) := [("query", .str p.query)]
  let qp := addIf qp (optStrTruthy p.collectionId) "collectionId" (p.collectionId.getD "")
  let qp := addIf qp (optStrTruthy p.siteId) "siteId" (p.siteId.getD "")
  let qp := addIf qp (optStrTruthy p.status) "status" (p.status.getD "")
  let qp := addIf qp (optStrTruthy p.visibility) "visibility" (p.visibility.getD "")
  let qp := addIf qp (optIntTruthy p.page) "page" (toString (p.page.getD 0))
  { method := "GET", path := "/search/articles", queryParams := qp }

/-- `getArticle(articleIdOrNumber, draft = false)`: an id or an article number
travels in the same slot; the flag switches to the draft variant via a query
parameter. -/
def DocsClient.getArticle (articleIdOrNumber : String) (draft : Bool) :
    RequestDescriptor :=
  let qp : List (String × QueryValue) := []
  let qp := addIf qp draft "draft" "true"
  { method := "GET", path := "/articles/" ++ articleIdOrNumber, queryParams := qp }

/-- `createArticle(data)`. -/
def DocsClient.createArticle (data : Json) : RequestDescriptor :=
  { method := "POST", path := "/articles?reload=true", body := some data }

/-- `updateArticle(articleId, data)`. -/
def DocsClient.updateArticle (articleId : String) (data : Json) :
    RequestDescriptor :=
  { method := "PUT", path := "/articles/" ++ articleId ++ "?reload=true",
    body := some data }

/-- `deleteArticle(articleId)`. -/
def DocsClient.deleteArticle (articleId : String) : RequestDescriptor :=
  { method := "DELETE", path := "/articles/" ++ articleId }

/-- A lone optional page filter (`params?: { page?: number }`). -/
structure PageParams where
  page : Option Int := none

/-- `listRelatedArticles(articleId, params?)`. -/
def DocsClient.listRelatedArticles (articleId : String) (p : PageParams) :
    RequestDescriptor :=
  let qp : List (String × QueryValue) := []
  let qp := addIf qp (optIntTruthy p.page) "page" (toString (p.page.getD 0))
  { method := "GET", path := "/articles/" ++ articleId ++ "/related",
    queryParams := qp }

/-- `listRevisions(articleId, params?)`. -/
def DocsClient.listRevisions (articleId : String) (p : PageParams) :
    RequestDescriptor :=
  let qp : List (String × QueryValue) := []
  let qp := addIf qp (optIntTruthy p.page) "page" (toString (p.page.getD 0))
  { method := "GET", path := "/articles/" ++ articleId ++ "/revisions",
    queryParams := qp }

/-- `getRevision(revisionId)`. -/
def DocsClient.getRevision (revisionId : String) : RequestDescriptor :=
  { method := "GET", path := "/revisions/" ++ revisionId }

/-- `saveArticleDraft(articleId, text)`. -/
def DocsClient.saveArticleDraft (articleId : String) (text : String) :
    RequestDescriptor :=
  { method := "PUT", path := "/articles/" ++ articleId ++ "/drafts",
    body := some (.obj [("text", .str text)]) }

/-- `deleteArticleDraft(articleId)`. -/
def DocsClient.deleteArticleDraft (articleId : String) : RequestDescriptor :=
  { method := "DELETE", path := "/articles/" ++ articleId ++ "/drafts" }

/-- `updateViewCount(articleId, count)`. -/
def DocsClient.updateViewCount (articleId : String) (count : Int) :
    RequestDescriptor :=
  { method := "PUT", path := "/articles/" ++ articleId ++ "/views",
    body := some (.obj [("count", .num count)]) }

/-- `listRedirects(siteId, params?)`. -/
def DocsClient.listRedirects (siteId : String) (p : PageParams) :
    RequestDescriptor :=
  let qp : List (String × QueryValue) := []
  let qp := addIf qp (optIntTruthy p.page) "page" (toString (p.page.getD 0))
  { method := "GET", path := "/redirects/site/" ++ siteId, queryParams := qp }

/-- `getRedirect(redirectId)`. -/
def DocsClient.getRedirect (redirectId : String) : RequestDescriptor :=
  { method := "GET", path := "/redirects/" ++ redirectId }

/-- `findRedirect(siteId, url)`: the `url` filter is always sent. -/
def DocsClient.findRedirect (siteId : String) (url : String) :
    RequestDescriptor :=
  { method := "GET", path := "/redirects/site/" ++ siteId,
    queryParams := [("url", .str url)] }

/-- `createRedirect(data)`. -/
def DocsClient.createRedirect (data : Json) : RequestDescriptor :=
  { method := "POST", path := "/redirects?reload=true", body := some data }

/-- `updateRedirect(redirectId, data)`. -/
def DocsClient.updateRedirect (redirectId : String) (data : Json) :
    RequestDescriptor :=
  { method := "PUT", path := "/redirects/" ++ redirectId ++ "?reload=true",
    body := some data }

/-- `deleteRedirect(redirectId)`. -/
def DocsClient.deleteRedirect (redirectId : String) : RequestDescriptor :=
  { method := "DELETE", path := "/redirects/" ++ redirectId }

/-! ## Inbox client operations -/

/-- Optional filters of `listConversations`. -/
structure ListConversationsParams where
  mailbox : Option Int := none
  status : Option String := none
  tag : Option String := none
  assigned_to : Option Int := none
  modifiedSince : Option String := none
  sortField : Option String := none
  sortOrder : Option String := none
  page : Option Int := none
  query : Option String := none

/-- `listConversations(params?)`. -/
def InboxClient.listConversations (p : ListConversationsParams) :
    RequestDescriptor :=
  let qp : List (String × QueryValue) := []
  let qp := addIf qp (optIntTruthy p.mailbox) "mailbox" (toString (p.mailbox.getD 0))
  let qp := addIf qp (optStrTruthy p.status) "status" (p.status.getD "")
  let qp := addIf qp (optStrTruthy p.tag) "tag" (p.tag.getD "")
  let qp := addIf qp (optIntTruthy p.assigned_to) "assigned_to" (toString (p.assigned_to.getD 0))
  let qp := addIf qp (optStrTruthy p.modifiedSince) "modifiedSince" (p.modifiedSince.getD "")
  let qp := addIf qp (optStrTruthy p.sortField) "sortField" (p.sortField.getD "")
  let qp := addIf qp (optStrTruthy p.sortOrder) "sortOrder" (p.sortOrder.getD "")
  let qp := addIf qp (optIntTruthy p.page) "page" (toString (p.page.getD 0))
  let qp := addIf qp (optStrTruthy p.query) "query" (p.query.getD "")
  { method := "GET", path := "/conversations", queryParams := qp }

/-- `getConversation(conversationId, embed?)`. -/
def InboxClient.getConversation (conversationId : Int) (embed : Option String) :
    RequestDescriptor :=
  let qp : List (String × QueryValue) := []
  let qp := addIf qp (optStrTruthy embed) "embed" (embed.getD "")
  { method := "GET", path := "/conversations/" ++ toString conversationId,
    queryParams := qp }

/-- `createReplyThread(conversationId, data)`. -/
def InboxClient.createReplyThread (conversationId : Int) (data : Json) :
    RequestDescriptor :=
  { method := "POST", path := "/conversations/" ++ toString conversationId ++ "/reply",
    body := some data }

/-- Optional filters of `listCustomers`. -/
structure ListCustomersParams where
  firstName : Option String := none
  lastName : Option String := none
  email : Option String := none
  modifiedSince : Option String := none
  sortField : Option String := none
  sortOrder : Option String := none
  page : Option Int := none
  query : Option String := none

/-- `listCustomers(params?)`. -/
def InboxClient.listCustomers (p : ListCustomersParams) : RequestDescriptor :=
  let qp : List (String × QueryValue) := []
  let qp := addIf qp (optStrTruthy p.firstName) "firstName" (p.firstName.getD "")
  let qp := addIf qp (optStrTruthy p.lastName) "lastName" (p.lastName.getD "")
  let qp := addIf qp (optStrTruthy p.email) "email" (p.email.getD "")
  let qp := addIf qp (optStrTruthy p.modifiedSince) "modifiedSince" (p.modifiedSince.getD "")
  let qp := addIf qp (optStrTruthy p.sortField) "sortField" (p.sortField.getD "")
  let qp := addIf qp (optStrTruthy p.sortOrder) "sortOrder" (p.sortOrder.getD "")
  let qp := addIf qp (optIntTruthy p.page) "page" (toString (p.page.getD 0))
  let qp := addIf qp (optStrTruthy p.query) "query" (p.query.getD "")
  { method := "GET", path := "/customers", queryParams := qp }

/-- `listMailboxes(page?)`. -/
def InboxClient.listMailboxes (page : Option Int) : RequestDescriptor :=
  let qp : List (String × QueryValue) := []
  let qp := addIf qp (optIntTruthy page) "page" (toString (page.getD 0))
  { method := "GET", path := "/mailboxes", queryParams := qp }

/-- `listUsers(page?)`. -/
def InboxClient.listUsers (page : Option Int) : RequestDescriptor :=
  let qp : List (String × QueryValue) := []
  let qp := addIf qp (optIntTruthy page) "page" (toString (page.getD 0))
  { method := "GET", path := "/users", queryParams := qp }

/-- `listTags(page?)`. -/
def InboxClient.listTags (page : Option Int) : RequestDescriptor :=
  let qp : List (String × QueryValue) := []
  let qp := addIf qp (optIntTruthy page) "page" (toString (page.getD 0))
  { method := "GET", path := "/tags", queryParams := qp }

/-! ## Tool layer (`src/index.ts`): client construction and handlers -/

/-- The constructed Inbox client: its OAuth application credentials. -/
structure InboxClient where
  appId : String
  appSecret : String

/-- `const docs = apiKey ? new DocsClient(apiKey) : null;` — JavaScript
truthiness, so an empty-string key also yields `null`. -/
def docsClientOf (apiKey : Option String) : Option DocsClient :=
  if strTruthy apiKey then some { apiKey := apiKey.getD "" } else none

/-- `const inbox = appId && appSecret ? new InboxClient(appId, appSecret) :
null;`. -/
def inboxClientOf (appId appSecret : Option String) : Option InboxClient :=
  if strTruthy appId && strTruthy appSecret then
    some { appId := appId.getD "", appSecret := appSecret.getD "" }
  else none

/-- The uniform result envelope a tool handler returns. -/
structure ToolResult where
  text : String
  isError : Bool

/-- `textResult(data)`: the success envelope around the serialized result. -/
def textResult (data : Json) : ToolResult :=
  { text := renderJson data, isError := false }

/-- `errResult(error)` applied to a message string (for an `Error`, the
handler passes `error.message`; for a plain string, the string itself). -/
def errResultMsg (message : String) : ToolResult :=
  { text := "Error: " ++ message, isError := true }

/-- The message of a raised error as `errResult` sees it.  The text of the
engine-specific `SyntaxError` thrown by `JSON.parse` is modelled nominally;
no theorem depends on it. -/
def reqErrorMessage : ReqError → String
  | .api m => m
  | .parse t => "Unexpected token in JSON: " ++ t

/-- The `docs_list_sites` tool handler: with no configured Docs client it
returns the failure envelope without any network call; otherwise it runs
`docs.listSites(page)` and wraps the outcome.  The returned number counts the
network requests issued. -/
def docs_list_sites_tool (docs : Option DocsClient) (page : Option Int)
    (resp : HttpResponse) : ToolResult × Nat :=
  match docs with
  | none => (errResultMsg "HELPSCOUT_API_KEY not configured", 0)
  | some _ =>
    let run := DocsClient.requestRun (DocsClient.listSites page) resp
    match run.2.1 with
    | .ok j => (textResult j, run.2.2)
    | .error e => (errResultMsg (reqErrorMessage e), run.2.2)

/-- The `inbox_list_conversations` tool handler: with no configured Inbox
client it returns the failure envelope without any network call; otherwise it
runs `inbox.listConversations(params)`.  The returned number counts the
network requests issued (token exchanges plus API calls). -/
def inbox_list_conversations_tool (inbox : Option InboxClient)
    (st : InboxState) (now : Int) (tokResp : TokenResponse)
    (p : ListConversationsParams) (resp : HttpResponse) :
    ToolResult × InboxState × Nat :=
  match inbox with
  | none => (errResultMsg "HELPSCOUT_APP_ID and HELPSCOUT_APP_SECRET not configured", st, 0)
  | some _ =>
    let out := InboxClient.requestRun st now tokResp
      (InboxClient.listConversations p) resp
    match out.result with
    | .ok j => (textResult j, out.state, out.exchanges + out.httpCalls)
    | .error e => (errResultMsg (reqErrorMessage e), out.state,
        out.exchanges + out.httpCalls)

/-! ## String suffix machinery -/

/-- `startsWithList s t`: the list `s` begins with the list `t`. -/
def startsWithList : List Char → List Char → Bool
  | _, [] => true
  | [], _ :: _ => false
  | a :: as, b :: bs => a = b && startsWithList as bs

/-- `strEndsWith s t`: the string `s` ends with the string `t` (the sense in
which a request path "ends with `?reload=true`"). -/
def strEndsWith (s t : String) : Bool :=
  startsWithList s.data.reverse t.data.reverse

theorem startsWithList_append (t r : List Char) :
    startsWithList (t ++ r) t = true := by
  induction t with
  | nil => cases r <;> rfl
  | cons a as ih => simp [startsWithList, ih]

theorem mem_of_startsWithList {s t : List Char}
    (h : startsWithList s t = true) : ∀ x ∈ t, x ∈ s := by
  induction t generalizing s with
  | nil => intro x hx; cases hx
  | cons b bs ih =>
    cases s with
    | nil => cases h
    | cons a as =>
      simp only [startsWithList, Bool.and_eq_true, decide_eq_true_eq] at h
      intro x hx
      rcases List.mem_cons.mp hx with hx | hx
      · rw [hx, ← h.1]; exact List.mem_cons_self a as
      · exact List.mem_cons_of_mem a (ih h.2 x hx)

theorem strEndsWith_append (a t : String) : strEndsWith (a ++ t) t = true := by
  show startsWithList (a.data ++ t.data).reverse t.data.reverse = true
  rw [List.reverse_append]
  exact startsWithList_append _ _

theorem strEndsWith_false_of_not_mem {s t : String} {c : Char}
    (hc : c ∈ t.data) (hs : c ∉ s.data) : strEndsWith s t = false := by
  cases h : strEndsWith s t with
  | false => rfl
  | true =>
    exact absurd (List.mem_reverse.mp
      (mem_of_startsWithList h c (List.mem_reverse.mpr hc))) hs

/-- `qFree s`: the string contains no `?` character (identifiers are opaque
tokens; a path built from such identifiers can end in `?reload=true` only
when the operation itself appended it). -/
def qFree (s : String) : Prop := '?' ∉ s.data

instance (s : String) : Decidable (qFree s) := by
  unfold qFree; infer_instance

theorem qFree_append {a b : String} (ha : qFree a) (hb : qFree b) :
    qFree (a ++ b) := by
  unfold qFree at *
  intro h
  rcases List.mem_append.mp h with h | h
  · exact ha h
  · exact hb h

theorem qmark_mem_reload : '?' ∈ "?reload=true".data := by decide

theorem noReload_of_qFree {s : String} (h : qFree s) :
    strEndsWith s "?reload=true" = false :=
  strEndsWith_false_of_not_mem qmark_mem_reload h

/-! ## Query assembly lemmas -/

theorem mem_setParam {ps : List (String × String)} {k v : String}
    {p : String × String} (h : p ∈ setParam ps k v) :
    p = (k, v) ∨ p ∈ ps := by
  induction ps with
  | nil =>
    simp [setParam] at h
    exact Or.inl h
  | cons a rest ih =>
    rw [setParam] at h
    by_cases hk : a.1 = k
    · rw [if_pos hk] at h
      rcases List.mem_cons.mp h with h | h
      · exact Or.inl h
      · exact Or.inr (List.mem_cons_of_mem a (List.mem_of_mem_filter h))
    · rw [if_neg hk] at h
      rcases List.mem_cons.mp h with h | h
      · exact Or.inr (h ▸ List.mem_cons_self a rest)
      · rcases ih h with h | h
        · exact Or.inl h
        · exact Or.inr (List.mem_cons_of_mem a h)

theorem not_mem_keys_setParam {ps : List (String × String)} {k v j : String}
    (hj : j ≠ k) (h : j ∉ ps.map Prod.fst) :
    j ∉ (setParam ps k v).map Prod.fst := by
  induction ps with
  | nil => simpa [setParam] using hj
  | cons a rest ih =>
    rw [setParam]
    simp only [List.map_cons, List.mem_cons] at h
    push_neg at h
    by_cases hk : a.1 = k
    · rw [if_pos hk]
      intro hmem
      simp only [List.map_cons, List.mem_cons] at hmem
      rcases hmem with hmem | hmem
      · exact hj hmem
      · rcases List.mem_map.mp hmem with ⟨p, hp, hp1⟩
        exact h.2 (List.mem_map.mpr ⟨p, List.mem_of_mem_filter hp, hp1⟩)
    · rw [if_neg hk]
      intro hmem
      simp only [List.map_cons, List.mem_cons] at hmem
      rcases hmem with hmem | hmem
      · exact h.1 hmem
      · exact ih h.2 hmem

theorem applyQueryParam_of_dropped {acc : List (String × String)} {k : String}
    {v : QueryValue} (h : queryValueKept v = false) :
    applyQueryParam acc k v = acc := by
  cases v with
  | undefined => rfl
  | null => rfl
  | str s =>
    simp only [queryValueKept, decide_eq_false_iff_not, not_not] at h
    simp [applyQueryParam, h]

theorem addQueryParams_not_mem {qp : List (String × QueryValue)}
    {init : List (String × String)} {k : String}
    (hq : ∀ v, (k, v) ∈ qp → queryValueKept v = false)
    (hi : k ∉ init.map Prod.fst) :
    k ∉ (addQueryParams init qp).map Prod.fst := by
  induction qp generalizing init with
  | nil => exact hi
  | cons p rest ih =>
    rw [addQueryParams, List.foldl_cons]
    refine ih (fun v hv => hq v (List.mem_cons_of_mem p hv)) ?_
    by_cases hk : p.1 = k
    · have hd : queryValueKept p.2 = false := by
        refine hq p.2 ?_
        have : p = (k, p.2) := by
          cases p; simp_all
        exact this ▸ List.mem_cons_self p rest
      rw [applyQueryParam_of_dropped hd]
      exact hi
    · cases hv : p.2 with
      | undefined => exact hi
      | null => exact hi
      | str s =>
        simp only [applyQueryParam]
        by_cases hs : s ≠ ""
        · rw [if_pos hs]
          exact not_mem_keys_setParam (fun he => hk (he.symm)) hi
        · rw [if_neg hs]
          exact hi

theorem addQueryParams_no_empty {qp : List (String × QueryValue)}
    {init : List (String × String)}
    (hi : ∀ p ∈ init, p.2 ≠ "") :
    ∀ p ∈ addQueryParams init qp, p.2 ≠ "" := by
  induction qp generalizing init with
  | nil => exact hi
  | cons q rest ih =>
    rw [addQueryParams, List.foldl_cons]
    refine ih ?_
    intro p hp
    cases hv : q.2 with
    | undefined => rw [hv] at hp; exact hi p hp
    | null => rw [hv] at hp; exact hi p hp
    | str s =>
      rw [hv] at hp
      simp only [applyQueryParam] at hp
      by_cases hs : s ≠ ""
      · rw [if_pos hs] at hp
        rcases mem_setParam hp with h | h
        · rw [h]; exact hs
        · exact hi p h
      · rw [if_neg hs] at hp
        exact hi p hp

/-! ## Further helper lemmas -/

theorem getAccessToken_cache_hit {st : InboxState} {now : Int}
    {resp : TokenResponse} {t : String}
    (h1 : st.accessToken = some t) (h2 : t ≠ "") (h3 : now < st.tokenExpiry) :
    InboxClient.getAccessToken st now resp
      = { result := .ok t, state := st, exchanges := 0 } := by
  unfold InboxClient.getAccessToken
  rw [if_pos ⟨by simp [strTruthy, h1, h2], h3⟩]
  simp [h1]

theorem getAccessToken_exchanges_le_one (st : InboxState) (now : Int)
    (resp : TokenResponse) :
    (InboxClient.getAccessToken st now resp).exchanges ≤ 1 := by
  unfold InboxClient.getAccessToken InboxClient.tokenExchange
  split
  · exact Nat.zero_le 1
  · split
    · exact Nat.le_refl 1
    · exact Nat.le_refl 1

/-! ## Claim theorems -/

/-- C7: listing articles with parent type "collection" and id `X` targets
`/collections/X/articles`; with parent type "category" and the same id it
targets `/categories/X/articles`; for every id and every filter set, the
path is selected solely by the explicit parent-type discriminant. -/
theorem C7_parent_type_dispatch (parentId : String) (p : ListArticlesParams) :
    (DocsClient.listArticles parentId ParentType.collection p).path
      = "/collections/" ++ parentId ++ "/articles" ∧
    (DocsClient.listArticles parentId ParentType.category p).path
      = "/categories/" ++ parentId ++ "/articles" :=
  ⟨rfl, rfl⟩

/-- C9 counterexample: `listSites` is a listing operation with an optional
numeric `page` parameter, but passing `0` does NOT omit the parameter — the
default-parameter builder always sends `page`, so the request URL carries
`page=0`. -/
theorem C9_counterexample :
    urlHasParam (docsBuildUrl (DocsClient.listSites (some 0)).path
        (DocsClient.listSites (some 0)).queryParams) "page" = true ∧
    ("page", "0") ∈ (docsBuildUrl (DocsClient.listSites (some 0)).path
        (DocsClient.listSites (some 0)).queryParams).params := by
  exact ⟨by decide, by decide⟩

/-- C9 (amended): every listing operation whose per-operation query builder
guards the parameter with a truthiness test — `listConversations` (mailbox,
assigned_to, page), `listCustomers`, `listMailboxes`, `listUsers`,
`listTags`, `listCollections`, `listCategories`, `listArticles` (page,
pageSize), `searchArticles`, `listRelatedArticles`, `listRevisions`,
`listRedirects` — drops the value `0`, producing a request identical to
omitting the parameter; `listSites` is the exception: its page defaults to 1
and is always sent, so `0` is sent as `page=0`. -/
theorem C9_amended_zero_dropped :
    (∀ p : ListConversationsParams,
        InboxClient.listConversations { p with mailbox := some 0 }
          = InboxClient.listConversations { p with mailbox := none } ∧
        InboxClient.listConversations { p with assigned_to := some 0 }
          = InboxClient.listConversations { p with assigned_to := none } ∧
        InboxClient.listConversations { p with page := some 0 }
          = InboxClient.listConversations { p with page := none }) ∧
    (∀ p : ListCustomersParams,
        InboxClient.listCustomers { p with page := some 0 }
          = InboxClient.listCustomers { p with page := none }) ∧
    (InboxClient.listMailboxes (some 0) = InboxClient.listMailboxes none) ∧
    (InboxClient.listUsers (some 0) = InboxClient.listUsers none) ∧
    (InboxClient.listTags (some 0) = InboxClient.listTags none) ∧
    (∀ p : ListCollectionsParams,
        DocsClient.listCollections { p with page := some 0 }
          = DocsClient.listCollections { p with page := none }) ∧
    (∀ (collectionId : String) (p : ListCategoriesParams),
        DocsClient.listCategories collectionId { p with page := some 0 }
          = DocsClient.listCategories collectionId { p with page := none }) ∧
    (∀ (parentId : String) (pt : ParentType) (p : ListArticlesParams),
        DocsClient.listArticles parentId pt { p with page := some 0 }
          = DocsClient.listArticles parentId pt { p with page := none } ∧
        DocsClient.listArticles parentId pt { p with pageSize := some 0 }
          = DocsClient.listArticles parentId pt { p with pageSize := none }) ∧
    (∀ p : SearchArticlesParams,
        DocsClient.searchArticles { p with page := some 0 }
          = DocsClient.searchArticles { p with page := none }) ∧
    (∀ articleId : String,
        DocsClient.listRelatedArticles articleId { page := some 0 }
          = DocsClient.listRelatedArticles articleId { page := none } ∧
        DocsClient.listRevisions articleId { page := some 0 }
          = DocsClient.listRevisions articleId { page := none }) ∧
    (∀ siteId : String,
        DocsClient.listRedirects siteId { page := some 0 }
          = DocsClient.listRedirects siteId { page := none }) := by
  refine ⟨fun p => ⟨rfl, rfl, rfl⟩, fun p => rfl, rfl, rfl, rfl, fun p => rfl,
    fun c p => rfl, fun pid pt p => ⟨rfl, rfl⟩, fun p => rfl,
    fun a => ⟨rfl, rfl⟩, fun s => rfl⟩

/-- C1 counterexample: `updateCategoryOrder`, `saveArticleDraft` and
`updateViewCount` are Docs update operations whose request paths do NOT end
with `?reload=true`, contradicting the claim's universal quantification. -/
theorem C1_counterexample :
    strEndsWith (DocsClient.updateCategoryOrder "c1" []).path "?reload=true" = false ∧
    strEndsWith (DocsClient.saveArticleDraft "a1" "hello").path "?reload=true" = false ∧
    strEndsWith (DocsClient.updateViewCount "a1" 5).path "?reload=true" = false := by
  exact ⟨by decide, by decide, by decide⟩

/-- C1 (amended): every Docs create/update operation on the primary resources
(sites, collections, categories, articles, redirects) has a request path
ending in `?reload=true`, and no read or delete operation does; the three
auxiliary writes `updateCategoryOrder`, `saveArticleDraft` and
`updateViewCount` do NOT append `?reload=true`.  (The negative halves assume
identifiers free of `?`, as identifiers are opaque tokens.) -/
theorem C1_amended_reload_paths
    (siteId collectionId categoryId articleId redirectId revisionId parentId : String)
    (data : Json) (categories : List (String × Int)) (text url : String)
    (count : Int) (page : Option Int) (draft : Bool)
    (pcol : ListCollectionsParams) (pcat : ListCategoriesParams)
    (part : ListArticlesParams) (psearch : SearchArticlesParams)
    (pp : PageParams) (pt : ParentType)
    (hs : qFree siteId) (hc : qFree collectionId) (hcat : qFree categoryId)
    (ha : qFree articleId) (hr : qFree redirectId) (hrev : qFree revisionId)
    (hp : qFree parentId) :
    strEndsWith (DocsClient.createSite data).path "?reload=true" = true ∧
    strEndsWith (DocsClient.updateSite siteId data).path "?reload=true" = true ∧
    strEndsWith (DocsClient.createCollection data).path "?reload=true" = true ∧
    strEndsWith (DocsClient.updateCollection collectionId data).path "?reload=true" = true ∧
    strEndsWith (DocsClient.createCategory data).path "?reload=true" = true ∧
    strEndsWith (DocsClient.updateCategory categoryId data).path "?reload=true" = true ∧
    strEndsWith (DocsClient.createArticle data).path "?reload=true" = true ∧
    strEndsWith (DocsClient.updateArticle articleId data).path "?reload=true" = true ∧
    strEndsWith (DocsClient.createRedirect data).path "?reload=true" = true ∧
    strEndsWith (DocsClient.updateRedirect redirectId data).path "?reload=true" = true ∧
    strEndsWith (DocsClient.listSites page).path "?reload=true" = false ∧
    strEndsWith (DocsClient.getSite siteId).path "?reload=true" = false ∧
    strEndsWith (DocsClient.deleteSite siteId).path "?reload=true" = false ∧
    strEndsWith (DocsClient.listCollections pcol).path "?reload=true" = false ∧
    strEndsWith (DocsClient.getCollection collectionId).path "?reload=true" = false ∧
    strEndsWith (DocsClient.deleteCollection collectionId).path "?reload=true" = false ∧
    strEndsWith (DocsClient.listCategories collectionId pcat).path "?reload=true" = false ∧
    strEndsWith (DocsClient.getCategory categoryId).path "?reload=true" = false ∧
    strEndsWith (DocsClient.updateCategoryOrder collectionId categories).path "?reload=true" = false ∧
    strEndsWith (DocsClient.deleteCategory categoryId).path "?reload=true" = false ∧
    strEndsWith (DocsClient.listArticles parentId pt part).path "?reload=true" = false ∧
    strEndsWith (DocsClient.searchArticles psearch).path "?reload=true" = false ∧
    strEndsWith (DocsClient.getArticle articleId draft).path "?reload=true" = false ∧
    strEndsWith (DocsClient.deleteArticle articleId).path "?reload=true" = false ∧
    strEndsWith (DocsClient.listRelatedArticles articleId pp).path "?reload=true" = false ∧
    strEndsWith (DocsClient.listRevisions articleId pp).path "?reload=true" = false ∧
    strEndsWith (DocsClient.getRevision revisionId).path "?reload=true" = false ∧
    strEndsWith (DocsClient.saveArticleDraft articleId text).path "?reload=true" = false ∧
    strEndsWith (DocsClient.deleteArticleDraft articleId).path "?reload=true" = false ∧
    strEndsWith (DocsClient.updateViewCount articleId count).path "?reload=true" = false ∧
    strEndsWith (DocsClient.listRedirects siteId pp).path "?reload=true" = false ∧
    strEndsWith (DocsClient.getRedirect redirectId).path "?reload=true" = false ∧
    strEndsWith (DocsClient.findRedirect siteId url).path "?reload=true" = false ∧
    strEndsWith (DocsClient.deleteRedirect redirectId).path "?reload=true" = false := by
  refine ⟨(by decide : strEndsWith "/sites?reload=true" "?reload=true" = true),
    strEndsWith_append ("/sites/" ++ siteId) "?reload=true",
    (by decide : strEndsWith "/collections?reload=true" "?reload=true" = true),
    strEndsWith_append ("/collections/" ++ collectionId) "?reload=true",
    (by decide : strEndsWith "/categories?reload=true" "?reload=true" = true),
    strEndsWith_append ("/categories/" ++ categoryId) "?reload=true",
    (by decide : strEndsWith "/articles?reload=true" "?reload=true" = true),
    strEndsWith_append ("/articles/" ++ articleId) "?reload=true",
    (by decide : strEndsWith "/redirects?reload=true" "?reload=true" = true),
    strEndsWith_append ("/redirects/" ++ redirectId) "?reload=true",
    (by decide : strEndsWith "/sites" "?reload=true" = false),
    noReload_of_qFree (qFree_append (by decide) hs),
    noReload_of_qFree (qFree_append (by decide) hs),
    (by decide : strEndsWith "/collections" "?reload=true" = false),
    noReload_of_qFree (qFree_append (by decide) hc),
    noReload_of_qFree (qFree_append (by decide) hc),
    noReload_of_qFree (qFree_append (qFree_append (by decide) hc) (by decide)),
    noReload_of_qFree (qFree_append (by decide) hcat),
    noReload_of_qFree (qFree_append (qFree_append (by decide) hc) (by decide)),
    noReload_of_qFree (qFree_append (by decide) hcat),
    ?_,
    (by decide : strEndsWith "/search/articles" "?reload=true" = false),
    noReload_of_qFree (qFree_append (by decide) ha),
    noReload_of_qFree (qFree_append (by decide) ha),
    noReload_of_qFree (qFree_append (qFree_append (by decide) ha) (by decide)),
    noReload_of_qFree (qFree_append (qFree_append (by decide) ha) (by decide)),
    noReload_of_qFree (qFree_append (by decide) hrev),
    noReload_of_qFree (qFree_append (qFree_append (by decide) ha) (by decide)),
    noReload_of_qFree (qFree_append (qFree_append (by decide) ha) (by decide)),
    noReload_of_qFree (qFree_append (qFree_append (by decide) ha) (by decide)),
    noReload_of_qFree (qFree_append (by decide) hs),
    noReload_of_qFree (qFree_append (by decide) hr),
    noReload_of_qFree (qFree_append (by decide) hs),
    noReload_of_qFree (qFree_append (by decide) hr)⟩
  cases pt
  · exact noReload_of_qFree (qFree_append (qFree_append (by decide) hp) (by decide))
  · exact noReload_of_qFree (qFree_append (qFree_append (by decide) hp) (by decide))

/-- C1 witness: the amended theorem applied at concrete identifiers. -/
theorem C1_witness :
    strEndsWith (DocsClient.updateSite "s1" Json.null).path "?reload=true" = true ∧
    strEndsWith (DocsClient.deleteSite "s1").path "?reload=true" = false := by
  obtain ⟨c1, c2, c3, c4, c5, c6, c7, c8, c9, c10, c11, c12, c13, c14, c15, c16,
    c17, c18, c19, c20, c21, c22, c23, c24, c25, c26, c27, c28, c29, c30, c31,
    c32, c33, c34⟩ :=
    C1_amended_reload_paths "s1" "c1" "g1" "a1" "r1" "v1" "p1" Json.null [] "t"
      "u" 0 none false {} {} {} { query := "q" } {} ParentType.collection
      (by decide) (by decide) (by decide) (by decide) (by decide) (by decide)
      (by decide)
  exact ⟨c2, c13⟩

theorem requestRun_eq (st : InboxState) (now : Int) (tokResp : TokenResponse)
    (d : RequestDescriptor) (resp : HttpResponse) :
    InboxClient.requestRun st now tokResp d resp =
      match (InboxClient.getAccessToken st now tokResp).result with
      | .error e =>
        { result := .error e,
          state := (InboxClient.getAccessToken st now tokResp).state,
          exchanges := (InboxClient.getAccessToken st now tokResp).exchanges,
          httpCalls := 0 }
      | .ok _ =>
        { result := inboxHandleResponse resp,
          state := (InboxClient.getAccessToken st now tokResp).state,
          exchanges := (InboxClient.getAccessToken st now tokResp).exchanges,
          httpCalls := 1 } := rfl

theorem urlHasParam_false {u : Url} {k : String}
    (h : k ∉ u.params.map Prod.fst) : urlHasParam u k = false := by
  unfold urlHasParam
  cases hA : u.params.any (fun p => p.1 = k) with
  | false => rfl
  | true =>
    rcases List.any_eq_true.mp hA with ⟨p, hp, hpk⟩
    exact absurd (List.mem_map.mpr ⟨p, hp, of_decide_eq_true hpk⟩) h

/-- C4: for either client, a query parameter whose value is `undefined`,
`null` or the empty string is omitted entirely from the request URL (for a
key not already present in the path's own query string), and no parameter
of the assembled URL ever carries an empty value (provided the path's own
query carried none). -/
theorem C4_query_param_omission :
    (∀ (path : String) (qp : List (String × QueryValue)) (k : String),
        (∀ v, (k, v) ∈ qp → queryValueKept v = false) →
        k ∉ (parseQuery (splitPathQuery path).2).map Prod.fst →
        urlHasParam (docsBuildUrl path qp) k = false ∧
        urlHasParam (inboxBuildUrl path qp) k = false) ∧
    (∀ (path : String) (qp : List (String × QueryValue)) (p : String × String),
        (∀ q ∈ parseQuery (splitPathQuery path).2, q.2 ≠ "") →
        (p ∈ (docsBuildUrl path qp).params ∨ p ∈ (inboxBuildUrl path qp).params) →
        p.2 ≠ "") := by
  constructor
  · intro path qp k hq hp
    have hd := @addQueryParams_not_mem qp (parseQuery (splitPathQuery path).2)
      k hq hp
    exact ⟨urlHasParam_false hd, urlHasParam_false hd⟩
  · intro path qp p hq hmem
    rcases hmem with h | h
    · exact addQueryParams_no_empty hq p h
    · exact addQueryParams_no_empty hq p h

/-- C4 witness: the theorem applied at concrete inputs — an empty-string
`status` filter and a `null` `mailbox` filter each vanish from the URL. -/
theorem C4_witness :
    urlHasParam (docsBuildUrl "/collections" [("visibility", QueryValue.str "")])
      "visibility" = false ∧
    urlHasParam (inboxBuildUrl "/conversations" [("mailbox", QueryValue.null)])
      "mailbox" = false := by
  constructor
  · refine (C4_query_param_omission.1 "/collections"
      [("visibility", QueryValue.str "")] "visibility" ?_ (by decide)).1
    rintro v hv
    simp only [List.mem_singleton, Prod.mk.injEq] at hv
    rw [hv.2]
    decide
  · refine (C4_query_param_omission.1 "/conversations"
      [("mailbox", QueryValue.null)] "mailbox" ?_ (by decide)).2
    rintro v hv
    simp only [List.mem_singleton, Prod.mk.injEq] at hv
    rw [hv.2]
    decide

/-- C5: for either client, a 204 response, a zero `content-length` header, or
an empty body on an otherwise-successful status yields the empty structured
value `{}` — never an error and never a null/absent result. -/
theorem C5_empty_body_success (r : HttpResponse)
    (hok : statusOk r.status = true)
    (h : r.status = 204 ∨ r.contentLength = some "0" ∨ r.body = "") :
    docsHandleResponse r = .ok (.obj []) ∧
    inboxHandleResponse r = .ok (.obj []) := by
  rcases h with h | h | h
  · unfold docsHandleResponse inboxHandleResponse
    simp [h, statusOk]
  · unfold docsHandleResponse inboxHandleResponse
    simp [hok, h]
  · unfold docsHandleResponse inboxHandleResponse
    simp [hok, h, ite_self]

/-- C5 witness: the theorem applied to a concrete 204 response and a concrete
200 response with an empty body. -/
theorem C5_witness :
    docsHandleResponse { status := 204, contentLength := none, body := "x" }
      = .ok (.obj []) ∧
    inboxHandleResponse { status := 200, contentLength := none, body := "" }
      = .ok (.obj []) :=
  ⟨(C5_empty_body_success _ (by decide) (Or.inl rfl)).1,
   (C5_empty_body_success _ (by decide) (Or.inr (Or.inr rfl))).2⟩

/-- C6 counterexample: the claim's "fails if and only if the status is
non-2xx" is false — a 200 response whose non-empty body is not valid JSON
makes `JSON.parse` throw, so the operation fails on a 2xx status. -/
theorem C6_counterexample :
    docsHandleResponse { status := 200, contentLength := none, body := "not json" }
      = .error (.parse "not json") ∧
    statusOk 200 = true :=
  ⟨rfl, rfl⟩

/-- C6 (amended): for every request of either client and for the token
exchange, a non-2xx status raises an error whose message carries the numeric
status and the raw body text; on a 2xx status no such API error is raised
(though a 2xx response whose non-empty body is not valid JSON still fails,
with a parse error); and no retry is attempted — each operation issues at
most one API request and at most one token exchange. -/
theorem C6_amended_error_propagation :
    (∀ r : HttpResponse, statusOk r.status = false →
        docsHandleResponse r = .error (.api ("Help Scout Docs API error "
          ++ toString r.status ++ ": " ++ r.body)) ∧
        inboxHandleResponse r = .error (.api ("Help Scout Inbox API error "
          ++ toString r.status ++ ": " ++ r.body))) ∧
    (∀ (st : InboxState) (now : Int) (resp : TokenResponse),
        statusOk resp.status = false →
        (InboxClient.tokenExchange st now resp).result = .error (.api
          ("Help Scout OAuth error " ++ toString resp.status ++ ": "
            ++ resp.bodyText))) ∧
    (∀ r : HttpResponse, statusOk r.status = true →
        (∀ m, docsHandleResponse r ≠ .error (.api m)) ∧
        (∀ m, inboxHandleResponse r ≠ .error (.api m))) ∧
    (∀ (d : RequestDescriptor) (resp : HttpResponse),
        (DocsClient.requestRun d resp).2.2 = 1) ∧
    (∀ (st : InboxState) (now : Int) (tokResp : TokenResponse)
        (d : RequestDescriptor) (resp : HttpResponse),
        (InboxClient.requestRun st now tokResp d resp).exchanges ≤ 1 ∧
        (InboxClient.requestRun st now tokResp d resp).httpCalls ≤ 1) := by
  refine ⟨?_, ?_, ?_, ?_, ?_⟩
  · intro r h
    unfold docsHandleResponse inboxHandleResponse
    simp [h]
  · intro st now resp h
    unfold InboxClient.tokenExchange
    simp [h]
  · intro r h
    constructor
    · intro m hcontra
      unfold docsHandleResponse at hcontra
      rw [h] at hcontra
      simp only [Bool.true_eq_false, if_false, reduceIte] at hcontra
      split at hcontra
      · exact Except.noConfusion hcontra
      · split at hcontra
        · exact Except.noConfusion hcontra
        · split at hcontra
          · exact Except.noConfusion hcontra
          · simp only [Except.error.injEq] at hcontra
            exact ReqError.noConfusion hcontra
    · intro m hcontra
      unfold inboxHandleResponse at hcontra
      rw [h] at hcontra
      simp only [Bool.true_eq_false, if_false, reduceIte] at hcontra
      split at hcontra
      · exact Except.noConfusion hcontra
      · split at hcontra
        · exact Except.noConfusion hcontra
        · split at hcontra
          · exact Except.noConfusion hcontra
          · simp only [Except.error.injEq] at hcontra
            exact ReqError.noConfusion hcontra
  · intro d resp
    rfl
  · intro st now tokResp d resp
    constructor
    · rcases hres : (InboxClient.getAccessToken st now tokResp).result with e | v <;>
        · rw [requestRun_eq, hres]
          exact getAccessToken_exchanges_le_one st now tokResp
    · rcases hres : (InboxClient.getAccessToken st now tokResp).result with e | v
      · rw [requestRun_eq, hres]
        simp
      · rw [requestRun_eq, hres]

/-- C6 witness: the amended theorem applied to a concrete 404 API response
and a concrete 500 token-exchange response. -/
theorem C6_witness :
    docsHandleResponse { status := 404, contentLength := none, body := "missing" }
      = .error (.api "Help Scout Docs API error 404: missing") ∧
    (InboxClient.tokenExchange InboxClient.initState 0
      { status := 500, bodyText := "boom" }).result
      = .error (.api "Help Scout OAuth error 500: boom") :=
  ⟨(C6_amended_error_propagation.1 _ (by decide)).1,
   C6_amended_error_propagation.2.1 _ _ _ (by decide)⟩

/-- C2: on every successful token exchange the stored expiry is
`now + (expires_in - 60) * 1000`; whenever the server-declared lifetime is at
most 60 seconds the stored expiry does not lie after `now`, so any later
authenticated call performs a fresh token exchange. -/
theorem C2_token_expiry_margin (st : InboxState) (now : Int)
    (resp : TokenResponse)
    (hmiss : ¬(strTruthy st.accessToken = true ∧ now < st.tokenExpiry))
    (hok : statusOk resp.status = true) :
    (InboxClient.getAccessToken st now resp).state.accessToken
      = some resp.access_token ∧
    (InboxClient.getAccessToken st now resp).state.tokenExpiry
      = now + (resp.expires_in - 60) * 1000 ∧
    (resp.expires_in ≤ 60 →
      (InboxClient.getAccessToken st now resp).state.tokenExpiry ≤ now ∧
      ∀ (later : Int) (resp' : TokenResponse), now ≤ later →
        (InboxClient.getAccessToken
          (InboxClient.getAccessToken st now resp).state later resp').exchanges
          = 1) := by
  have h1 : InboxClient.getAccessToken st now resp
      = InboxClient.tokenExchange st now resp := by
    unfold InboxClient.getAccessToken
    rw [if_neg hmiss]
  have h2 : InboxClient.tokenExchange st now resp
      = { result := .ok resp.access_token,
          state := { accessToken := some resp.access_token,
                     tokenExpiry := now + (resp.expires_in - 60) * 1000 },
          exchanges := 1 } := by
    unfold InboxClient.tokenExchange
    simp [hok]
  rw [h1, h2]
  refine ⟨rfl, rfl, fun he => ⟨?_, ?_⟩⟩
  · show now + (resp.expires_in - 60) * 1000 ≤ now
    have h3 : resp.expires_in - 60 ≤ 0 := by linarith
    have h4 : (resp.expires_in - 60) * 1000 ≤ 0 := by nlinarith
    linarith
  · intro later resp' hge
    have h3 : resp.expires_in - 60 ≤ 0 := by linarith
    have h4 : (resp.expires_in - 60) * 1000 ≤ 0 := by nlinarith
    unfold InboxClient.getAccessToken
    split
    · next hcond =>
      exfalso
      exact absurd hcond.2 (by simp; linarith)
    · unfold InboxClient.tokenExchange
      split <;> rfl

/-- C2 witness: the theorem applied with a declared lifetime of exactly 60
seconds — the stored expiry equals the acquisition time and the next call at
that very time performs a token exchange. -/
theorem C2_witness :
    (InboxClient.getAccessToken InboxClient.initState 1000
      { status := 200, bodyText := "", access_token := "tok", expires_in := 60
        }).state.tokenExpiry = 1000 ∧
    (InboxClient.getAccessToken
      (InboxClient.getAccessToken InboxClient.initState 1000
        { status := 200, bodyText := "", access_token := "tok",
          expires_in := 60 }).state
      1000 { status := 200 }).exchanges = 1 := by
  have h := C2_token_expiry_margin InboxClient.initState 1000
    { status := 200, bodyText := "", access_token := "tok", expires_in := 60 }
    (by rintro ⟨htr, -⟩; simp [InboxClient.initState, strTruthy] at htr)
    (by decide)
  constructor
  · rw [h.2.1]; norm_num
  · exact (h.2.2 (by norm_num)).2 1000 { status := 200 } (le_refl 1000)

/-- C3: a cached truthy token with expiry strictly in the future is reused
with no token-exchange request; in particular two authenticated operations
run in sequence from a fresh client, the second falling inside the validity
window stored by the first, issue exactly one token exchange in total. -/
theorem C3_token_reuse :
    (∀ (st : InboxState) (now : Int) (resp : TokenResponse) (t : String),
        st.accessToken = some t → t ≠ "" → now < st.tokenExpiry →
        InboxClient.getAccessToken st now resp
          = { result := .ok t, state := st, exchanges := 0 }) ∧
    (∀ (n₁ n₂ : Int) (tok₁ tok₂ : TokenResponse)
        (d₁ d₂ : RequestDescriptor) (r₁ r₂ : HttpResponse),
        statusOk tok₁.status = true → tok₁.access_token ≠ "" →
        n₂ < n₁ + (tok₁.expires_in - 60) * 1000 →
        (InboxClient.requestRun InboxClient.initState n₁ tok₁ d₁ r₁).exchanges
          + (InboxClient.requestRun
              (InboxClient.requestRun InboxClient.initState n₁ tok₁ d₁ r₁).state
              n₂ tok₂ d₂ r₂).exchanges = 1) := by
  constructor
  · intro st now resp t h1 h2 h3
    exact getAccessToken_cache_hit h1 h2 h3
  · intro n₁ n₂ tok₁ tok₂ d₁ d₂ r₁ r₂ hok hne hlt
    have hga1 : InboxClient.getAccessToken InboxClient.initState n₁ tok₁
        = { result := .ok tok₁.access_token,
            state := { accessToken := some tok₁.access_token,
                       tokenExpiry := n₁ + (tok₁.expires_in - 60) * 1000 },
            exchanges := 1 } := by
      unfold InboxClient.getAccessToken
      rw [if_neg (by rintro ⟨htr, -⟩
                     simp [InboxClient.initState, strTruthy] at htr)]
      unfold InboxClient.tokenExchange
      simp [hok]
    have hrun1 : InboxClient.requestRun InboxClient.initState n₁ tok₁ d₁ r₁
        = { result := inboxHandleResponse r₁,
            state := { accessToken := some tok₁.access_token,
                       tokenExpiry := n₁ + (tok₁.expires_in - 60) * 1000 },
            exchanges := 1, httpCalls := 1 } := by
      rw [requestRun_eq, hga1]
    have hga2 : InboxClient.getAccessToken
        { accessToken := some tok₁.access_token,
          tokenExpiry := n₁ + (tok₁.expires_in - 60) * 1000 } n₂ tok₂
        = { result := .ok tok₁.access_token,
            state := { accessToken := some tok₁.access_token,
                       tokenExpiry := n₁ + (tok₁.expires_in - 60) * 1000 },
            exchanges := 0 } :=
      getAccessToken_cache_hit rfl hne hlt
    have hrun2 : InboxClient.requestRun
        { accessToken := some tok₁.access_token,
          tokenExpiry := n₁ + (tok₁.expires_in - 60) * 1000 } n₂ tok₂ d₂ r₂
        = { result := inboxHandleResponse r₂,
            state := { accessToken := some tok₁.access_token,
                       tokenExpiry := n₁ + (tok₁.expires_in - 60) * 1000 },
            exchanges := 0, httpCalls := 1 } := by
      rw [requestRun_eq, hga2]
    rw [hrun1]
    rw [hrun2]
    rfl

/-- C3 witness: the theorem applied at concrete times and responses. -/
theorem C3_witness :
    InboxClient.getAccessToken
      { accessToken := some "tok", tokenExpiry := 100 } 50 { status := 200 }
      = { result := .ok "tok",
          state := { accessToken := some "tok", tokenExpiry := 100 },
          exchanges := 0 } ∧
    (InboxClient.requestRun InboxClient.initState 0
        { status := 200, bodyText := "", access_token := "tok",
          expires_in := 3600 }
        { method := "GET", path := "/users/me" } { status := 200 }).exchanges
      + (InboxClient.requestRun
          (InboxClient.requestRun InboxClient.initState 0
            { status := 200, bodyText := "", access_token := "tok",
              expires_in := 3600 }
            { method := "GET", path := "/users/me" } { status := 200 }).state
          5 { status := 500 } { method := "GET", path := "/tags" }
          { status := 200 }).exchanges = 1 :=
  ⟨C3_token_reuse.1 _ 50 _ "tok" rfl (by decide) (by norm_num),
   C3_token_reuse.2 0 5 _ _ _ _ _ _ (by decide) (by decide) (by norm_num)⟩

/-- C10: a failed (non-2xx) token exchange leaves the cached token state
exactly as it was — the error is raised before any assignment — and, when
the call actually reached the exchange (cache miss), the raised error is the
OAuth error carrying status and body. -/
theorem C10_failed_exchange_state (st : InboxState) (now : Int)
    (resp : TokenResponse) (hfail : statusOk resp.status = false) :
    (InboxClient.getAccessToken st now resp).state = st ∧
    (¬(strTruthy st.accessToken = true ∧ now < st.tokenExpiry) →
      (InboxClient.getAccessToken st now resp).result
        = .error (.api ("Help Scout OAuth error " ++ toString resp.status
            ++ ": " ++ resp.bodyText))) := by
  have h2 : InboxClient.tokenExchange st now resp
      = { result := .error (.api ("Help Scout OAuth error "
            ++ toString resp.status ++ ": " ++ resp.bodyText)),
          state := st, exchanges := 1 } := by
    unfold InboxClient.tokenExchange
    simp [hfail]
  unfold InboxClient.getAccessToken
  by_cases h : strTruthy st.accessToken = true ∧ now < st.tokenExpiry
  · rw [if_pos h]
    exact ⟨rfl, fun hc => absurd h hc⟩
  · rw [if_neg h, h2]
    exact ⟨rfl, fun _ => rfl⟩

/-- C10 witness: the theorem applied to a concrete cached state and a
concrete 503 exchange response. -/
theorem C10_witness :
    (InboxClient.getAccessToken
      { accessToken := some "old", tokenExpiry := 42 } 100
      { status := 503, bodyText := "down" }).state
      = { accessToken := some "old", tokenExpiry := 42 } ∧
    (InboxClient.getAccessToken
      { accessToken := some "old", tokenExpiry := 42 } 100
      { status := 503, bodyText := "down" }).result
      = .error (.api "Help Scout OAuth error 503: down") := by
  have h := C10_failed_exchange_state
    { accessToken := some "old", tokenExpiry := 42 } 100
    { status := 503, bodyText := "down" } (by decide)
  exact ⟨h.1, h.2 (by rintro ⟨-, hlt⟩; norm_num at hlt)⟩

/-- C8: a tool invoked without its required credentials returns the failure
envelope with a "not configured" message and issues zero network calls; an
absent (or empty) credential means the corresponding client is never
constructed, and the condition is handled by returning an envelope, not by
raising. -/
theorem C8_credential_gating :
    (∀ apiKey : Option String, strTruthy apiKey = false →
        docsClientOf apiKey = none) ∧
    (∀ appId appSecret : Option String,
        strTruthy appId = false ∨ strTruthy appSecret = false →
        inboxClientOf appId appSecret = none) ∧
    (∀ (page : Option Int) (resp : HttpResponse),
        docs_list_sites_tool none page resp
          = (errResultMsg "HELPSCOUT_API_KEY not configured", 0)) ∧
    (∀ (st : InboxState) (now : Int) (tokResp : TokenResponse)
        (p : ListConversationsParams) (resp : HttpResponse),
        inbox_list_conversations_tool none st now tokResp p resp
          = (errResultMsg
              "HELPSCOUT_APP_ID and HELPSCOUT_APP_SECRET not configured",
             st, 0)) ∧
    (∃ a b : String,
        (errResultMsg "HELPSCOUT_API_KEY not configured").text
          = a ++ "not configured" ++ b ∧
        (errResultMsg "HELPSCOUT_API_KEY not configured").isError = true) ∧
    (∃ a b : String,
        (errResultMsg
          "HELPSCOUT_APP_ID and HELPSCOUT_APP_SECRET not configured").text
          = a ++ "not configured" ++ b ∧
        (errResultMsg
          "HELPSCOUT_APP_ID and HELPSCOUT_APP_SECRET not configured").isError
          = true) := by
  refine ⟨?_, ?_, fun page resp => rfl, fun st now tokResp p resp => rfl,
    ⟨"Error: HELPSCOUT_API_KEY ", "", by decide, rfl⟩,
    ⟨"Error: HELPSCOUT_APP_ID and HELPSCOUT_APP_SECRET ", "", by decide, rfl⟩⟩
  · intro k h
    unfold docsClientOf
    simp [h]
  · intro i s h
    unfold inboxClientOf
    rcases h with h | h <;> simp [h]

/-- C8 witness: the theorem applied to concrete missing/empty credentials. -/
theorem C8_witness :
    docsClientOf (some "") = none ∧ inboxClientOf none (some "secret") = none :=
  ⟨C8_credential_gating.1 (some "") (by decide),
   C8_credential_gating.2.1 none (some "secret") (Or.inl (by decide))⟩
